import Mathlib

/-!
Verification development for the House-Price-Prediction FastAPI service
(`src/main.py`).  The service loads a pickled scaler and regression model at
process start, serves a static HTML form at `GET /`, and serves `POST /predict`:
pydantic validates a five-field numeric body, the handler assembles the
single-row feature matrix, checks its width against `scaler.n_features_in_`,
applies `scaler.transform` and `model.predict`, multiplies the first output by
100000 and echoes the input; a catch-all converts any exception into an
HTTP 500 with detail `Prediction error: <message>`.

Modelling conventions: Python floats are modelled as exact rationals (ℚ);
the opaque fitted artifacts are records whose `transform` / `predict` methods
are arbitrary functions returning `Except String _` so that any library
exception (modelled as its message string) is representable; a raised
exception is the `Except.error` case.  JSON bodies are association lists of
`JsonValue`s.
-/

namespace HousePriceApp

/-- A JSON value, as FastAPI hands it to pydantic after parsing the request
body. -/
inductive JsonValue where
  | num (q : ℚ)
  | str (s : String)
  | bool (b : Bool)
  | null
  | arr (elems : List JsonValue)
  | obj (fields : List (String × JsonValue))

/-- A JSON object body: an association list of field names to values. -/
abbrev Body := List (String × JsonValue)

/-- The validated input schema of `POST /predict` (`class HouseFeatures` in
`src/main.py`, lines 31-36): five required float fields in declaration
order. -/
structure HouseFeatures where
  MedInc : ℚ
  HouseAge : ℚ
  AveRooms : ℚ
  AveBedrms : ℚ
  AvePop : ℚ
deriving DecidableEq

/-- Pydantic dict export `features.dict()` (line 147): the model's fields in
declaration order. -/
def HouseFeatures.dict (f : HouseFeatures) : List (String × ℚ) :=
  [("MedInc", f.MedInc), ("HouseAge", f.HouseAge), ("AveRooms", f.AveRooms),
   ("AveBedrms", f.AveBedrms), ("AvePop", f.AvePop)]

/-- The opaque fitted scaler artifact (`scaler.pkl`).  `n_features_in_` is the
recorded expected input width; `transform` is the fitted row transform, which
may raise (modelled as `Except.error` carrying the exception message). -/
structure Scaler where
  n_features_in_ : ℕ
  transform : List (List ℚ) → Except String (List (List ℚ))

/-- The opaque fitted regression model artifact
(`linear_regression_model.pkl`).  `predict` maps a matrix of rows to a vector
of outputs and may raise. -/
structure Model where
  predict : List (List ℚ) → Except String (List ℚ)

/-- The output schema of `POST /predict` (`class PredictionResponse`,
lines 39-41). -/
structure PredictionResponse where
  predicted_price : ℚ
  input_features : List (String × ℚ)
deriving DecidableEq

/-- The possible HTTP outcomes of `POST /predict`: a 200 success, a 422
pydantic validation error (list of per-field error messages), or a 500
`HTTPException` whose JSON body is the single field `detail`. -/
inductive PredictHttpResponse where
  | success (resp : PredictionResponse)
  | validationError (errors : List (String × String))
  | serverError (detail : String)
deriving DecidableEq

/-- HTTP status code of each `POST /predict` outcome. -/
def PredictHttpResponse.status : PredictHttpResponse → ℕ
  | .success _ => 200
  | .validationError _ => 422
  | .serverError _ => 500

/-- Assembly `np.array([[MedInc, HouseAge, AveRooms, AveBedrms, AvePop]])`
(lines 133-136): the single-row matrix in fixed field order. -/
def input_matrix (f : HouseFeatures) : List (List ℚ) :=
  [[f.MedInc, f.HouseAge, f.AveRooms, f.AveBedrms, f.AvePop]]

/-- Column count `input_data.shape[1]` of the (rectangular, single-row)
matrix. -/
def shape1 (m : List (List ℚ)) : ℕ := (m.headD []).length

/-- Numpy indexing `arr[0]` on a one-dimensional array: raises `IndexError`
when the array is empty. -/
def numpy_index0 (l : List ℚ) : Except String ℚ :=
  match l with
  | [] => .error "index 0 is out of bounds for axis 0 with size 0"
  | x :: _ => .ok x

/-- The width-mismatch `ValueError` message of line 139:
`Scaler expects \x7bscaler.n_features_in_\x7d features, got \x7binput_data.shape[1]\x7d`. -/
def width_error_msg (expected got : ℕ) : String :=
  "Scaler expects " ++ toString expected ++ " features, got " ++ toString got

/-- Steps 3-6 of the pipeline (lines 141-148), after the width check passed:
scale, predict, take the first output, multiply by 100000, build the
response. -/
def pipeline_after_width_check (scaler : Scaler) (model : Model)
    (features : HouseFeatures) : Except String PredictionResponse := do
  let input_scaled ← scaler.transform (input_matrix features)
  let preds ← model.predict input_scaled
  let prediction ← numpy_index0 preds
  pure { predicted_price := prediction * 100000,
         input_features := features.dict }

/-- The body of the `try` block of `predict_house_price` (lines 133-148):
assemble the matrix, check its width against `scaler.n_features_in_`
(raising a `ValueError` on mismatch), then run the rest of the pipeline. -/
def predictPipeline (scaler : Scaler) (model : Model)
    (features : HouseFeatures) : Except String PredictionResponse :=
  let input_data := input_matrix features
  if shape1 input_data ≠ scaler.n_features_in_ then
    .error (width_error_msg scaler.n_features_in_ (shape1 input_data))
  else
    pipeline_after_width_check scaler model features

/-- The `POST /predict` handler `predict_house_price` (lines 131-150), given
already-validated features: run the pipeline; any exception is caught by the
single `except` clause and converted to
`HTTPException(status_code=500, detail="Prediction error: " + str(e))`. -/
def predict_house_price (scaler : Scaler) (model : Model)
    (features : HouseFeatures) : PredictHttpResponse :=
  match predictPipeline scaler model features with
  | .ok resp => .success resp
  | .error msg => .serverError ("Prediction error: " ++ msg)

/-- Lookup of a key in a JSON object: Python's `json` module keeps the last
occurrence of a duplicated key, so the fold keeps the last binding. -/
def jsonGet (fields : Body) (k : String) : Option JsonValue :=
  fields.foldl (fun acc p => if p.1 = k then some p.2 else acc) none

/-- Value of an unsigned all-digit run, `none` when empty or a non-digit
occurs. -/
def digitsVal : List Char → Option ℕ
  | [] => none
  | cs =>
    if cs.all Char.isDigit then
      some (cs.foldl (fun a c => 10 * a + (c.toNat - 48)) 0)
    else none

/-- Numeric-string coercion as pydantic applies Python float parsing to a
string field value: optional sign, then digits with at most one decimal
point and at least one digit (`"1."` and `".5"` are accepted, `"."` and
non-numeric text are not; exponents and the infinities are not modelled, no
claim depends on them). -/
def parsePyFloat (s : String) : Option ℚ :=
  let t := s.trim.toList
  let (sign, rest) :=
    match t with
    | '-' :: cs => ((-1 : ℚ), cs)
    | '+' :: cs => ((1 : ℚ), cs)
    | cs => ((1 : ℚ), cs)
  match rest.splitOn '.' with
  | [intPart] =>
    match digitsVal intPart with
    | some n => some (sign * n)
    | none => none
  | [intPart, fracPart] =>
    if intPart.isEmpty ∧ fracPart.isEmpty then none
    else if (intPart ++ fracPart).all Char.isDigit ∧ intPart ++ fracPart ≠ [] then
      some (sign * ((intPart.foldl (fun a c => 10 * a + (c.toNat - 48)) 0 : ℕ) +
        (fracPart.foldl (fun a c => 10 * a + (c.toNat - 48)) 0 : ℕ) /
          (10 : ℚ) ^ fracPart.length))
    else none
  | _ => none

/-- Pydantic coercion of a JSON value to a `float` field: numbers pass
through, numeric strings are parsed, booleans coerce to 0/1, everything
else (null, arrays, objects, non-numeric strings) is rejected. -/
def coerceFloat : JsonValue → Option ℚ
  | .num q => some q
  | .str s => parsePyFloat s
  | .bool b => some (if b then 1 else 0)
  | .null => none
  | .arr _ => none
  | .obj _ => none

/-- The five required field names, in schema declaration order. -/
def requiredFields : List String :=
  ["MedInc", "HouseAge", "AveRooms", "AveBedrms", "AvePop"]

/-- Validation of one required float field of the body: missing or
uncoercible values produce a per-field error entry, as pydantic reports
them. -/
def fieldValue (body : Body) (k : String) : Except (String × String) ℚ :=
  match jsonGet body k with
  | none => .error (k, "field required")
  | some v =>
    match coerceFloat v with
    | none => .error (k, "value is not a valid float")
    | some q => .ok q

/-- All per-field errors of a body, in field order (pydantic collects every
failing field). -/
def fieldErrors (body : Body) : List (String × String) :=
  requiredFields.filterMap fun k =>
    match fieldValue body k with
    | .error e => some e
    | .ok _ => none

/-- Pydantic validation of the request body against `HouseFeatures`: all five
fields must be present and coercible; unknown extra fields are ignored; on
any failure the full error list is reported. -/
def validateBody (body : Body) : Except (List (String × String)) HouseFeatures :=
  match fieldValue body "MedInc", fieldValue body "HouseAge",
      fieldValue body "AveRooms", fieldValue body "AveBedrms",
      fieldValue body "AvePop" with
  | .ok a, .ok b, .ok c, .ok d, .ok e =>
    .ok { MedInc := a, HouseAge := b, AveRooms := c, AveBedrms := d, AvePop := e }
  | _, _, _, _, _ => .error (fieldErrors body)

/-- The full `POST /predict` route: FastAPI first runs pydantic validation
(a failure yields the framework-level 422 and the handler body is never
entered); on success the handler `predict_house_price` runs. -/
def predict_route (scaler : Scaler) (model : Model) (body : Body) :
    PredictHttpResponse :=
  match validateBody body with
  | .error errs => .validationError errs
  | .ok features => predict_house_price scaler model features

/-- Contents of the artifact directory: each file is present (and then
deserializes to its artifact) or absent. -/
structure Disk where
  model_file : Option Model
  scaler_file : Option Scaler

/-- Process-wide state after a successful startup: the two artifacts, loaded
once and held for the process lifetime. -/
structure AppState where
  model : Model
  scaler : Scaler

/-- Outcome of module import (lines 13-20): either the app starts with both
artifacts loaded, or a `RuntimeError` aborts the process before it accepts
any traffic. -/
inductive Startup where
  | started (st : AppState)
  | failed (msg : String)

/-- The artifact-loading block (lines 13-20): open and unpickle the model
file, then the scaler file; a `FileNotFoundError` on either is re-raised as
`RuntimeError(f" Required file missing: \x7be\x7d")`, which is fatal at import
time. The model file is opened first, as in the source. -/
def startup (d : Disk) : Startup :=
  match d.model_file with
  | none => .failed (" Required file missing: " ++
      "[Errno 2] No such file or directory: linear_regression_model.pkl")
  | some m =>
    match d.scaler_file with
    | none => .failed (" Required file missing: " ++
        "[Errno 2] No such file or directory: scaler.pkl")
    | some s => .started { model := m, scaler := s }

/-- Handling one request against the process state: the handler only reads
the globals `scaler` and `model` (no assignment to them occurs anywhere in
the source), so the state comes back unchanged. -/
def handle_request (st : AppState) (body : Body) :
    AppState × PredictHttpResponse :=
  (st, predict_route st.scaler st.model body)

/-- Serving a sequence of requests, threading the process state through. -/
def serve : AppState → List Body → AppState × List PredictHttpResponse
  | st, [] => (st, [])
  | st, b :: bs =>
    let p := handle_request st b
    let rest := serve p.1 bs
    (rest.1, p.2 :: rest.2)

/-- The lines of the fixed HTML document returned by `GET /` (`frontend`,
lines 44-126 of `src/main.py`): the source's triple-quoted string literal,
listed line by line in order (the document starts with a newline and ends
with the closing indentation, exactly as in the source). -/
def frontend_lines : List String :=
  [   "",
   "    <!DOCTYPE html>",
   "    <html>",
   "    <head>",
   "        <title>House Price Prediction</title>",
   "        <link href=\"https://fonts.googleapis.com/css2?family=Roboto:wght@400;700&display=swap\" rel=\"stylesheet\">",
   "        <style>",
   "            body \x7b",
   "                font-family: \x27Roboto\x27, sans-serif;",
   "                background: linear-gradient(135deg, #6a11cb 0%, #2575fc 100%);",
   "                display: flex;",
   "                justify-content: center;",
   "                align-items: center;",
   "                height: 100vh;",
   "                margin: 0;",
   "            \x7d",
   "            .card \x7b",
   "                background: white;",
   "                padding: 30px;",
   "                border-radius: 15px;",
   "                box-shadow: 0 4px 20px rgba(0,0,0,0.2);",
   "                max-width: 400px;",
   "                width: 100%;",
   "            \x7d",
   "            h1 \x7b color: #2575fc; text-align: center; \x7d",
   "            input, button \x7b",
   "                width: 100%;",
   "                padding: 10px;",
   "                margin: 8px 0;",
   "                border-radius: 8px;",
   "                border: 1px solid #ccc;",
   "            \x7d",
   "            button \x7b",
   "                background: #2575fc;",
   "                color: white;",
   "                border: none;",
   "                cursor: pointer;",
   "                font-size: 1.1em;",
   "            \x7d",
   "            button:hover \x7b background: #1a5edc; \x7d",
   "            #result \x7b margin-top: 10px; text-align: center; font-weight: bold; \x7d",
   "        </style>",
   "    </head>",
   "    <body>",
   "        <div class=\"card\">",
   "            <h1>🏠 Predict Price</h1>",
   "            <form id=\"predictionForm\">",
   "                <input type=\"number\" step=\"any\" name=\"MedInc\" placeholder=\"Median Income\" required>",
   "                <input type=\"number\" step=\"any\" name=\"HouseAge\" placeholder=\"House Age\" required>",
   "                <input type=\"number\" step=\"any\" name=\"AveRooms\" placeholder=\"Average Rooms\" required>",
   "                <input type=\"number\" step=\"any\" name=\"AveBedrms\" placeholder=\"Average Bedrooms\" required>",
   "                <input type=\"number\" step=\"any\" name=\"AvePop\" placeholder=\"Average Population\" required>",
   "                <button type=\"submit\">Predict Price</button>",
   "            </form>",
   "            <div id=\"result\"></div>",
   "        </div>",
   "        <script>",
   "            document.getElementById(\"predictionForm\").addEventListener(\"submit\", async function(e) \x7b",
   "                e.preventDefault();",
   "                const formData = new FormData(e.target);",
   "                const data = Object.fromEntries(formData.entries());",
   "                for (let key in data) data[key] = parseFloat(data[key]);",
   "                ",
   "                const response = await fetch(\"/predict\", \x7b",
   "                    method: \"POST\",",
   "                    headers: \x7b \"Content-Type\": \"application/json\" \x7d,",
   "                    body: JSON.stringify(data)",
   "                \x7d);",
   "                const result = await response.json();",
   "                if (response.ok) \x7b",
   "                    document.getElementById(\"result\").textContent = \"Predicted Price: $\" + result.predicted_price.toFixed(2);",
   "                    document.getElementById(\"result\").style.color = \"green\";",
   "                \x7d else \x7b",
   "                    document.getElementById(\"result\").textContent = \"Error: \" + result.detail;",
   "                    document.getElementById(\"result\").style.color = \"red\";",
   "                \x7d",
   "            \x7d);",
   "        </script>",
   "    </body>",
   "    </html>",
   "    "]

/-- Joining lines with newline separators: `unlines frontend_lines` is
character-for-character the triple-quoted literal of the source.  (The
document is stated via its lines so that proofs about its text traverse one
bounded line at a time.) -/
def unlines : List String → String
  | [] => ""
  | [l] => l
  | l :: ls => l ++ "\n" ++ unlines ls

/-- The fixed HTML document returned by `GET /`: no server-side templating,
the same string on every request. -/
def frontend_html : String := unlines frontend_lines

/-- An HTTP response with a status code and an HTML body. -/
structure HtmlResponse where
  status : ℕ
  body : String

/-- The `GET /` route (`frontend`): no inputs, a constant; FastAPI's
`HTMLResponse` with the default status 200 and the fixed document as body. -/
def frontend_route : HtmlResponse :=
  { status := 200, body := frontend_html }

/-- Number of occurrences of `pat` in `s` (as character lists): positions
where `pat` starts. -/
def countOcc (pat : List Char) : List Char → ℕ
  | [] => 0
  | c :: rest => (if pat.isPrefixOf (c :: rest) then 1 else 0) + countOcc pat rest

/-- Occurrence count lifted to strings. -/
def countSubstr (s pat : String) : ℕ := countOcc pat.toList s.toList

/-- A stub scaler recording the expected five-feature width, whose transform
is the identity. -/
def idScaler : Scaler := { n_features_in_ := 5, transform := fun m => .ok m }

/-- A stub scaler recording a six-feature expected width (a mismatched
artifact). -/
def wideScaler : Scaler := { n_features_in_ := 6, transform := fun m => .ok m }

/-- A stub scaler whose transform raises. -/
def failScaler : Scaler :=
  { n_features_in_ := 5, transform := fun _ => .error "Input contains NaN" }

/-- A stub model predicting the constant 2 for any row. -/
def constModel2 : Model := { predict := fun _ => .ok [2] }

/-- A concrete valid request body (the example scenario of the spec). -/
def sampleBody : Body :=
  [("MedInc", .num 8), ("HouseAge", .num 41), ("AveRooms", .num 6),
   ("AveBedrms", .num 1), ("AvePop", .num 322)]

/-- The features `sampleBody` validates to. -/
def sampleFeatures : HouseFeatures :=
  { MedInc := 8, HouseAge := 41, AveRooms := 6, AveBedrms := 1, AvePop := 322 }

/-- The character-list counterpart of `unlines`. -/
def joinLines : List (List Char) → List Char
  | [] => []
  | [l] => l
  | l :: ls => l ++ '\n' :: joinLines ls

theorem isPrefixOf_append_cons (pat : List Char) (c : Char) (hc : c ∉ pat) :
    ∀ zs ws : List Char, pat.isPrefixOf (zs ++ c :: ws) = pat.isPrefixOf zs := by
  induction pat with
  | nil => intro zs ws; simp [List.isPrefixOf]
  | cons p ps ih =>
    intro zs ws
    have hpc : p ≠ c := fun h => hc (h ▸ List.mem_cons_self p ps)
    have hps : c ∉ ps := fun h => hc (List.mem_cons_of_mem p h)
    cases zs with
    | nil =>
      simp only [List.nil_append, List.isPrefixOf]
      simp [beq_eq_false_iff_ne.mpr hpc]
    | cons z zs' =>
      simp only [List.cons_append, List.isPrefixOf, List.append_eq]
      rw [ih hps zs' ws]

theorem isPrefixOf_nil_eq_false (pat : List Char) (h : pat ≠ []) :
    pat.isPrefixOf [] = false := by
  cases pat with
  | nil => exact absurd rfl h
  | cons p ps => rfl

theorem countOcc_append_cons (pat : List Char) (c : Char) (hne : pat ≠ [])
    (hc : c ∉ pat) (xs ys : List Char) :
    countOcc pat (xs ++ c :: ys) = countOcc pat xs + countOcc pat ys := by
  induction xs with
  | nil =>
    simp only [List.nil_append, countOcc]
    have h1 : pat.isPrefixOf (c :: ys) = false := by
      have h2 := isPrefixOf_append_cons pat c hc [] ys
      simp only [List.nil_append] at h2
      rw [h2, isPrefixOf_nil_eq_false pat hne]
    simp [h1]
  | cons x xs' ih =>
    have h1 : pat.isPrefixOf (x :: xs' ++ c :: ys) = pat.isPrefixOf (x :: xs') :=
      isPrefixOf_append_cons pat c hc (x :: xs') ys
    simp only [List.cons_append, countOcc, List.append_eq] at *
    simp only [h1, ih]
    omega

theorem unlines_data : ∀ ls : List String,
    (unlines ls).data = joinLines (ls.map String.data) := by
  intro ls
  induction ls with
  | nil => rfl
  | cons l ls ih =>
    cases ls with
    | nil => rfl
    | cons l2 ls2 =>
      simp only [unlines, joinLines, List.map]
      rw [String.data_append, String.data_append, ih]
      simp [List.append_assoc]

theorem countOcc_joinLines (pat : List Char) (hne : pat ≠ []) (hc : ('\n' : Char) ∉ pat) :
    ∀ ls : List (List Char), countOcc pat (joinLines ls) = (ls.map (countOcc pat)).sum := by
  intro ls
  induction ls with
  | nil => simp [joinLines, countOcc]
  | cons l ls ih =>
    cases ls with
    | nil => simp [joinLines]
    | cons l2 ls2 =>
      simp only [joinLines]
      rw [countOcc_append_cons pat '\n' hne hc, ih]
      simp

theorem countSubstr_frontend (pat : String) (hne : pat.toList ≠ [])
    (hc : ('\n' : Char) ∉ pat.toList) :
    countSubstr frontend_html pat =
      (frontend_lines.map (fun l => countOcc pat.toList l.data)).sum := by
  show countOcc pat.toList frontend_html.data =
      (frontend_lines.map (fun l => countOcc pat.toList l.data)).sum
  rw [show frontend_html = unlines frontend_lines from rfl, unlines_data,
    countOcc_joinLines pat.toList hne hc, List.map_map]
  rfl

/-- C1: for every request whose body contains all five required fields as
numbers (pydantic validation succeeds), with the loaded scaler expecting five
features and the scaler transform and model prediction succeeding with a
nonempty output (the behaviour of the real fitted artifacts), `POST /predict`
returns status 200 with `predicted_price` equal to the model's prediction on
the scaler-transformed single-row matrix
`[[MedInc, HouseAge, AveRooms, AveBedrms, AvePop]]` (in exactly that order)
multiplied by exactly 100000, and with `input_features` echoing the original
unscaled five input values. -/
theorem predict_success_spec (scaler : Scaler) (model : Model) (body : Body)
    (features : HouseFeatures) (scaled : List (List ℚ)) (p : ℚ) (rest : List ℚ)
    (hv : validateBody body = .ok features)
    (hn : scaler.n_features_in_ = 5)
    (ht : scaler.transform (input_matrix features) = .ok scaled)
    (hp : model.predict scaled = .ok (p :: rest)) :
    predict_route scaler model body =
      .success { predicted_price := p * 100000,
                 input_features := features.dict } ∧
    (predict_route scaler model body).status = 200 := by
  have hpipe : predictPipeline scaler model features =
      .ok { predicted_price := p * 100000, input_features := features.dict } := by
    unfold predictPipeline
    rw [if_neg (by simp [shape1, input_matrix, hn])]
    unfold pipeline_after_width_check
    rw [ht]
    simp only [Bind.bind, Except.bind]
    rw [hp]
    rfl
  have hroute : predict_route scaler model body =
      .success { predicted_price := p * 100000, input_features := features.dict } := by
    simp [predict_route, hv, predict_house_price, hpipe]
  exact ⟨hroute, by rw [hroute]; rfl⟩

/-- Witness for C1 at the example scenario body, the identity five-feature
scaler and the constant model. -/
theorem predict_success_spec_witness :
    predict_route idScaler constModel2 sampleBody =
      .success { predicted_price := (2 : ℚ) * 100000,
                 input_features := sampleFeatures.dict } ∧
    (predict_route idScaler constModel2 sampleBody).status = 200 :=
  predict_success_spec idScaler constModel2 sampleBody sampleFeatures
    (input_matrix sampleFeatures) 2 [] rfl rfl rfl rfl

/-- C2: for every validated request handled by a loaded scaler whose recorded
expected input width differs from the assembled matrix's five columns, the
pipeline raises the explanatory `ValueError`, the request is answered with an
HTTP 500 whose detail starts with the words `Prediction error`, and the
process keeps running: handling the request leaves the process state intact
(a request-level, not process-level, failure). -/
theorem width_mismatch_spec (scaler : Scaler) (model : Model) (body : Body)
    (features : HouseFeatures)
    (hv : validateBody body = .ok features)
    (hn : scaler.n_features_in_ ≠ 5) :
    predictPipeline scaler model features =
      .error (width_error_msg scaler.n_features_in_ 5) ∧
    predict_route scaler model body =
      .serverError ("Prediction error: " ++ width_error_msg scaler.n_features_in_ 5) ∧
    (predict_route scaler model body).status = 500 ∧
    (handle_request { model := model, scaler := scaler } body).1 =
      { model := model, scaler := scaler } := by
  have hpipe : predictPipeline scaler model features =
      .error (width_error_msg scaler.n_features_in_ 5) := by
    unfold predictPipeline
    simp [shape1, input_matrix, Ne.symm hn]
  have hroute : predict_route scaler model body =
      .serverError ("Prediction error: " ++ width_error_msg scaler.n_features_in_ 5) := by
    simp [predict_route, hv, predict_house_price, hpipe]
  exact ⟨hpipe, hroute, by rw [hroute]; rfl, rfl⟩

/-- Witness for C2 at the example scenario body and the six-feature stub
scaler. -/
theorem width_mismatch_spec_witness :
    predictPipeline wideScaler constModel2 sampleFeatures =
      .error (width_error_msg wideScaler.n_features_in_ 5) ∧
    predict_route wideScaler constModel2 sampleBody =
      .serverError ("Prediction error: " ++ width_error_msg wideScaler.n_features_in_ 5) ∧
    (predict_route wideScaler constModel2 sampleBody).status = 500 ∧
    (handle_request { model := constModel2, scaler := wideScaler } sampleBody).1 =
      { model := constModel2, scaler := wideScaler } :=
  width_mismatch_spec wideScaler constModel2 sampleBody sampleFeatures rfl
    (by decide)

/-- C3: every exception raised during pipeline execution inside
`POST /predict` (width check, scaler transform, model prediction, first-output
indexing, response construction) is caught by the single catch-all and
converted into an HTTP 500 whose JSON body detail is
`Prediction error: <message>` with the exception's textual description
forwarded verbatim. -/
theorem catch_all_spec (scaler : Scaler) (model : Model)
    (features : HouseFeatures) (msg : String)
    (he : predictPipeline scaler model features = .error msg) :
    predict_house_price scaler model features =
      .serverError ("Prediction error: " ++ msg) ∧
    (predict_house_price scaler model features).status = 500 := by
  have h : predict_house_price scaler model features =
      .serverError ("Prediction error: " ++ msg) := by
    simp [predict_house_price, he]
  exact ⟨h, by rw [h]; rfl⟩

/-- Witness for C3 with a scaler whose transform raises. -/
theorem catch_all_spec_witness :
    predict_house_price failScaler constModel2 sampleFeatures =
      .serverError ("Prediction error: " ++ "Input contains NaN") ∧
    (predict_house_price failScaler constModel2 sampleFeatures).status = 500 :=
  catch_all_spec failScaler constModel2 sampleFeatures "Input contains NaN" rfl

/-- C5: with the artifacts fixed, the prediction pipeline is a pure function
of the input features and the two loaded artifacts: serving the same body
twice against the same process state yields the very same response value both
times, namely the one computed from the state's scaler and model alone. -/
theorem deterministic_spec (st : AppState) (b : Body) :
    (serve st [b, b]).2 =
      [predict_route st.scaler st.model b, predict_route st.scaler st.model b] ∧
    ∃ r, (serve st [b, b]).2 = [r, r] :=
  ⟨rfl, predict_route st.scaler st.model b, rfl⟩

theorem fieldValue_error_of_bad (body : Body) (k : String)
    (hbad : jsonGet body k = none ∨
      ∃ v, jsonGet body k = some v ∧ coerceFloat v = none) :
    ∃ e, fieldValue body k = .error e := by
  rcases hbad with h | ⟨v, hv, hc⟩
  · exact ⟨(k, "field required"), by simp [fieldValue, h]⟩
  · exact ⟨(k, "value is not a valid float"), by simp [fieldValue, hv, hc]⟩

theorem validateBody_error_of_field (body : Body) (k : String) (e : String × String)
    (hk : k ∈ requiredFields) (he : fieldValue body k = .error e) :
    validateBody body = .error (fieldErrors body) ∧ fieldErrors body ≠ [] := by
  have hk5 : k = "MedInc" ∨ k = "HouseAge" ∨ k = "AveRooms" ∨
      k = "AveBedrms" ∨ k = "AvePop" := by
    simpa [requiredFields] using hk
  have hmem : e ∈ fieldErrors body := by
    apply List.mem_filterMap.mpr
    exact ⟨k, hk, by rw [he]⟩
  refine ⟨?_, List.ne_nil_of_mem hmem⟩
  unfold validateBody
  rcases hk5 with rfl | rfl | rfl | rfl | rfl <;>
  rcases h1 : fieldValue body "MedInc" with e1 | v1 <;>
  rcases h2 : fieldValue body "HouseAge" with e2 | v2 <;>
  rcases h3 : fieldValue body "AveRooms" with e3 | v3 <;>
  rcases h4 : fieldValue body "AveBedrms" with e4 | v4 <;>
  rcases h5 : fieldValue body "AvePop" with e5 | v5 <;>
  simp_all

/-- C4: every `POST /predict` request body missing one of the five required
fields, or supplying a value no float coercion accepts for it, is answered
with the framework-level 422 validation error carrying per-field error
entries, and no pipeline computation occurs: the response is the same
whatever artifacts are loaded (the handler body is never entered). -/
theorem validation_rejects_spec (scaler : Scaler) (model : Model) (body : Body)
    (k : String) (hk : k ∈ requiredFields)
    (hbad : jsonGet body k = none ∨
      ∃ v, jsonGet body k = some v ∧ coerceFloat v = none) :
    predict_route scaler model body = .validationError (fieldErrors body) ∧
    fieldErrors body ≠ [] ∧
    (predict_route scaler model body).status = 422 ∧
    ∀ scaler2 model2,
      predict_route scaler model body = predict_route scaler2 model2 body := by
  obtain ⟨e, he⟩ := fieldValue_error_of_bad body k hbad
  obtain ⟨hval, hne⟩ := validateBody_error_of_field body k e hk he
  have hroute : ∀ (s : Scaler) (m : Model),
      predict_route s m body = .validationError (fieldErrors body) := by
    intro s m
    simp [predict_route, hval]
  refine ⟨hroute scaler model, hne, by rw [hroute scaler model]; rfl, ?_⟩
  intro scaler2 model2
  rw [hroute scaler model, hroute scaler2 model2]

/-- Witness for C4 at a body missing `HouseAge` (and the other three trailing
fields), checked against two different artifact pairs. -/
theorem validation_rejects_spec_witness :
    predict_route idScaler constModel2 [("MedInc", .num 1)] =
      .validationError (fieldErrors [("MedInc", .num 1)]) ∧
    fieldErrors [("MedInc", .num 1)] ≠ [] ∧
    (predict_route idScaler constModel2 [("MedInc", .num 1)]).status = 422 ∧
    ∀ scaler2 model2,
      predict_route idScaler constModel2 [("MedInc", .num 1)] =
        predict_route scaler2 model2 [("MedInc", .num 1)] :=
  validation_rejects_spec idScaler constModel2 [("MedInc", .num 1)]
    "HouseAge" (by decide) (Or.inl rfl)

theorem serve_state_fixed (bs : List Body) (st : AppState) :
    (serve st bs).1 = st := by
  induction bs generalizing st with
  | nil => rfl
  | cons b bs ih => simpa [serve, handle_request] using ih st

/-- C6: at process start, if either artifact file is missing the load block
raises the fatal `RuntimeError` and the process never reaches the started
state (no traffic is accepted); when both load, the app starts holding
exactly the two artifacts, and serving any request sequence leaves that
process-wide state untouched — the artifacts are never reloaded or mutated
for the life of the process. -/
theorem startup_spec :
    (∀ d : Disk, d.model_file = none ∨ d.scaler_file = none →
      (∃ msg, startup d = .failed msg) ∧ ∀ st, startup d ≠ .started st) ∧
    (∀ m s, startup { model_file := some m, scaler_file := some s } =
      .started { model := m, scaler := s }) ∧
    (∀ (st : AppState) (bs : List Body), (serve st bs).1 = st) := by
  refine ⟨?_, fun m s => rfl, fun st bs => serve_state_fixed bs st⟩
  intro d hd
  rcases hm : d.model_file with _ | m
  · exact ⟨⟨" Required file missing: " ++
        "[Errno 2] No such file or directory: linear_regression_model.pkl",
      by simp [startup, hm]⟩, by intro st; simp [startup, hm]⟩
  · rcases hs : d.scaler_file with _ | s
    · exact ⟨⟨" Required file missing: " ++
          "[Errno 2] No such file or directory: scaler.pkl",
        by simp [startup, hm, hs]⟩, by intro st; simp [startup, hm, hs]⟩
    · rcases hd with h | h
      · rw [hm] at h; exact absurd h (by simp)
      · rw [hs] at h; exact absurd h (by simp)

/-- Witness for C6: a disk missing the model file fails startup, and a
two-request session leaves the started state unchanged. -/
theorem startup_spec_witness :
    ((∃ msg, startup { model_file := none, scaler_file := some idScaler } =
        .failed msg) ∧
      ∀ st, startup { model_file := none, scaler_file := some idScaler } ≠
        .started st) ∧
    startup { model_file := some constModel2, scaler_file := some idScaler } =
      .started { model := constModel2, scaler := idScaler } ∧
    (serve { model := constModel2, scaler := idScaler }
      [sampleBody, sampleBody]).1 = { model := constModel2, scaler := idScaler } :=
  ⟨startup_spec.1 _ (Or.inl rfl), startup_spec.2.1 constModel2 idScaler,
    startup_spec.2.2 _ _⟩

/-- C7 counterexample: the claim says no failure path exists for an artifact
whose expected feature count differs from five and that the pipeline would
silently produce wrong results; but at the six-feature stub scaler the
request fails loudly — the width check raises and the handler answers 500
with the explanatory detail, not a silent 200. -/
theorem silent_failure_counterexample :
    predict_house_price wideScaler constModel2 sampleFeatures =
      .serverError "Prediction error: Scaler expects 6 features, got 5" ∧
    (predict_house_price wideScaler constModel2 sampleFeatures).status = 500 ∧
    (predict_house_price wideScaler constModel2 sampleFeatures).status ≠ 200 := by
  refine ⟨?_, ?_, ?_⟩ <;> decide

/-- C7 amended: a failure path does exist for the expected feature count —
any scaler artifact whose recorded width differs from five makes every
request fail with a 500 server error through the width check; only the
output scale is unguarded (the handler multiplies whatever the model returns
by the fixed 100000, as `pipeline_after_width_check` shows, so a change of
the artifacts' output scale alone is silent). -/
theorem width_guard_amended_spec (scaler : Scaler) (model : Model)
    (features : HouseFeatures) (hn : scaler.n_features_in_ ≠ 5) :
    predict_house_price scaler model features =
      .serverError ("Prediction error: " ++ width_error_msg scaler.n_features_in_ 5) ∧
    (predict_house_price scaler model features).status = 500 := by
  have hpipe : predictPipeline scaler model features =
      .error (width_error_msg scaler.n_features_in_ 5) := by
    unfold predictPipeline
    simp [shape1, input_matrix, Ne.symm hn]
  have h : predict_house_price scaler model features =
      .serverError ("Prediction error: " ++ width_error_msg scaler.n_features_in_ 5) := by
    simp [predict_house_price, hpipe]
  exact ⟨h, by rw [h]; rfl⟩

/-- Witness for the amended C7 at the six-feature stub scaler. -/
theorem width_guard_amended_spec_witness :
    predict_house_price wideScaler constModel2 sampleFeatures =
      .serverError ("Prediction error: " ++ width_error_msg wideScaler.n_features_in_ 5) ∧
    (predict_house_price wideScaler constModel2 sampleFeatures).status = 500 :=
  width_guard_amended_spec wideScaler constModel2 sampleFeatures (by decide)

/-- C9: under the precondition that the loaded scaler records five expected
features, the width-mismatch branch of `POST /predict` is unreachable for
every validated request: the assembled matrix is built from exactly the five
schema fields, so its column count is always five and the pipeline always
proceeds past the check. -/
theorem width_check_unreachable_spec (scaler : Scaler) (model : Model)
    (features : HouseFeatures) (hn : scaler.n_features_in_ = 5) :
    shape1 (input_matrix features) = 5 ∧
    predictPipeline scaler model features =
      pipeline_after_width_check scaler model features := by
  have hskip : predictPipeline scaler model features =
      pipeline_after_width_check scaler model features := by
    unfold predictPipeline
    rw [if_neg (by simp [shape1, input_matrix, hn])]
  exact ⟨rfl, hskip⟩

/-- Witness for C9 at the identity five-feature scaler. -/
theorem width_check_unreachable_spec_witness :
    shape1 (input_matrix sampleFeatures) = 5 ∧
    predictPipeline idScaler constModel2 sampleFeatures =
      pipeline_after_width_check idScaler constModel2 sampleFeatures :=
  width_check_unreachable_spec idScaler constModel2 sampleFeatures rfl

set_option maxRecDepth 4000 in
/-- C8: `GET /` takes no inputs, always succeeds with status 200 and always
returns the same fixed HTML document (`frontend_route` is a constant, no
server-side templating), and that document's text contains each of the five
field names `MedInc`, `HouseAge`, `AveRooms`, `AveBedrms`, `AvePop` exactly
once — in the form's input elements. -/
theorem frontend_spec :
    frontend_route.status = 200 ∧
    frontend_route.body = frontend_html ∧
    countSubstr frontend_html "MedInc" = 1 ∧
    countSubstr frontend_html "HouseAge" = 1 ∧
    countSubstr frontend_html "AveRooms" = 1 ∧
    countSubstr frontend_html "AveBedrms" = 1 ∧
    countSubstr frontend_html "AvePop" = 1 := by
  refine ⟨rfl, rfl, ?_, ?_, ?_, ?_, ?_⟩ <;>
    (rw [countSubstr_frontend _ (by decide) (by decide)]; decide)

theorem foldl_jsonGet_no_key (k : String) (extras : Body)
    (h : ∀ p ∈ extras, p.1 ≠ k) (a : Option JsonValue) :
    extras.foldl (fun acc p => if p.1 = k then some p.2 else acc) a = a := by
  induction extras generalizing a with
  | nil => rfl
  | cons p ps ih =>
    simp only [List.foldl_cons]
    rw [if_neg (h p (List.mem_cons_self p ps)),
      ih (fun q hq => h q (List.mem_cons_of_mem p hq))]

theorem jsonGet_append_of_no_key (body extras : Body) (k : String)
    (h : ∀ p ∈ extras, p.1 ≠ k) :
    jsonGet (body ++ extras) k = jsonGet body k := by
  unfold jsonGet
  rw [List.foldl_append]
  exact foldl_jsonGet_no_key k extras h _

theorem fieldValue_append_of_no_key (body extras : Body) (k : String)
    (h : ∀ p ∈ extras, p.1 ≠ k) :
    fieldValue (body ++ extras) k = fieldValue body k := by
  unfold fieldValue
  rw [jsonGet_append_of_no_key body extras k h]

theorem validateBody_append_extras (body extras : Body)
    (hdisj : ∀ p ∈ extras, p.1 ∉ requiredFields) :
    validateBody (body ++ extras) = validateBody body := by
  have hks : ∀ k ∈ requiredFields,
      fieldValue (body ++ extras) k = fieldValue body k := by
    intro k hk
    exact fieldValue_append_of_no_key body extras k
      (fun p hp hpk => hdisj p hp (hpk ▸ hk))
  have hErr : fieldErrors (body ++ extras) = fieldErrors body := by
    unfold fieldErrors
    exact List.filterMap_congr (fun k hk => by rw [hks k hk])
  unfold validateBody
  rw [hks "MedInc" (by decide), hks "HouseAge" (by decide),
    hks "AveRooms" (by decide), hks "AveBedrms" (by decide),
    hks "AvePop" (by decide), hErr]

theorem predictPipeline_ok_echo (scaler : Scaler) (model : Model)
    (features : HouseFeatures) (r : PredictionResponse)
    (h : predictPipeline scaler model features = .ok r) :
    r.input_features = features.dict := by
  unfold predictPipeline at h
  by_cases hif : shape1 (input_matrix features) ≠ scaler.n_features_in_
  · rw [if_pos hif] at h
    exact absurd h (by simp)
  · rw [if_neg hif] at h
    unfold pipeline_after_width_check at h
    rcases ht : scaler.transform (input_matrix features) with e | scaled
    · rw [ht] at h
      simp only [Bind.bind, Except.bind] at h
      exact absurd h (by simp)
    · rw [ht] at h
      simp only [Bind.bind, Except.bind] at h
      rcases hp : model.predict scaled with e | preds
      · rw [hp] at h
        simp at h
      · rw [hp] at h
        rcases preds with _ | ⟨p, rest⟩
        · simp [numpy_index0] at h
        · simp only [numpy_index0, pure, Except.pure, Except.ok.injEq] at h
          rw [← h]

/-- C10: a `POST /predict` body containing the five required numeric fields
plus arbitrary additional unknown fields passes validation with the same
result and is processed identically; the extra fields are ignored by the
pipeline, and the `input_features` echo of any successful response contains
exactly the five declared fields, whose names are precisely the schema's. -/
theorem extra_fields_ignored_spec (scaler : Scaler) (model : Model)
    (body extras : Body) (features : HouseFeatures)
    (hv : validateBody body = .ok features)
    (hdisj : ∀ p ∈ extras, p.1 ∉ requiredFields) :
    validateBody (body ++ extras) = .ok features ∧
    predict_route scaler model (body ++ extras) =
      predict_route scaler model body ∧
    features.dict.map Prod.fst = requiredFields ∧
    ∀ r, predict_route scaler model (body ++ extras) = .success r →
      r.input_features = features.dict := by
  have hvb := validateBody_append_extras body extras hdisj
  have h2 : predict_route scaler model (body ++ extras) =
      predict_route scaler model body := by
    unfold predict_route
    rw [hvb]
  refine ⟨by rw [hvb, hv], h2, rfl, ?_⟩
  intro r hr
  rw [h2] at hr
  have hroute : predict_route scaler model body =
      predict_house_price scaler model features := by
    simp [predict_route, hv]
  rw [hroute] at hr
  unfold predict_house_price at hr
  rcases hp : predictPipeline scaler model features with e | resp
  · rw [hp] at hr
    exact absurd hr (by simp)
  · rw [hp] at hr
    simp only [PredictHttpResponse.success.injEq] at hr
    rw [← hr]
    exact predictPipeline_ok_echo scaler model features resp hp

/-- Witness for C10: the example scenario body extended with two unknown
fields. -/
theorem extra_fields_ignored_spec_witness :
    validateBody (sampleBody ++ [("Extra", .str "ignored"), ("Another", .num 7)]) =
      .ok sampleFeatures ∧
    predict_route idScaler constModel2
        (sampleBody ++ [("Extra", .str "ignored"), ("Another", .num 7)]) =
      predict_route idScaler constModel2 sampleBody ∧
    sampleFeatures.dict.map Prod.fst = requiredFields ∧
    ∀ r, predict_route idScaler constModel2
        (sampleBody ++ [("Extra", .str "ignored"), ("Another", .num 7)]) =
        .success r →
      r.input_features = sampleFeatures.dict :=
  extra_fields_ignored_spec idScaler constModel2 sampleBody
    [("Extra", .str "ignored"), ("Another", .num 7)] sampleFeatures rfl
    (by decide)

end HousePriceApp
